import Mathlib

/-!
Shallow embedding of the Demake backend (tweets / likes / retweets / follows /
auth services) and proofs about the claims of its specification.

Conventions of the embedding:
* UUIDs and timestamps are modelled as natural numbers.
* A database state is a record of lists of rows, one list per table, in table
  order; an SQLAlchemy query `.filter(p).first()` is List.find?, `.filter(p).all()`
  is List.filter, `.offset(s).limit(l)` is `(·.drop s).take l`, and
  `.order_by(col.desc())` is an insertion sort by the key, descending.
* Mutating service functions return the pair (new state, result); an error
  result leaves the state unchanged (the request transaction is rolled back).
* External effects (media upload, the LLM tone rewriter, password hashing,
  token signing, the RNG of random.sample) are parameters of the embedding.
-/

set_option maxRecDepth 8000

deriving instance DecidableEq for Except

namespace Demake

abbrev Id := Nat

/-- Row of the users table (src/models.py, class User).  Fields not used by any
claim (location, image urls other than profile_image_url, birth date,
timestamps other than verified_on) are omitted.  The profile text column
(nullable Text, src/models.py line 29) is kept because the follow listings
validate it. -/
structure User where
  id : Id
  username : String
  email : String
  password : String
  full_name : String
  bio : Option String
  profile_image_url : Option String
  verified_on : Option Nat
  deriving Repr, DecidableEq

/-- Row of the tweets table (src/models.py, class Tweet). -/
structure Tweet where
  id : Id
  user_id : Id
  content : String
  media_url : Option String
  parent_tweet_id : Option Id
  created_at : Nat
  deriving Repr, DecidableEq

/-- Row of the retweets table (src/models.py, class Retweet); unique
constraint uq_retweet_tweet_user on (tweet_id, user_id). -/
structure Retweet where
  id : Id
  tweet_id : Id
  user_id : Id
  created_at : Nat
  deriving Repr, DecidableEq

/-- Row of the likes table (src/models.py, class Like); unique constraint
uq_like_tweet_user on (tweet_id, user_id). -/
structure Like where
  id : Id
  tweet_id : Id
  user_id : Id
  created_at : Nat
  deriving Repr, DecidableEq

/-- Row of the follows table (src/models.py, class Follow); composite primary
key (follower_id, followed_id). -/
structure Follow where
  follower_id : Id
  followed_id : Id
  created_at : Nat
  deriving Repr, DecidableEq

/-- The relational store shared by all services. -/
structure DB where
  users : List User
  tweets : List Tweet
  retweets : List Retweet
  likes : List Like
  follows : List Follow
  deriving Repr, DecidableEq

/-- The domain exceptions raised by the services, one constructor per exception
class defined in the per-package exceptions.py files.  DBError stands for an
uncaught low-level database error (e.g. a NOT NULL violation at commit). -/
inductive Err where
  | TweetNotFound
  | NonOwnerDelete
  | InvaildParentTweet
  | MediaUpload
  | EmptyTweet
  | TweetOverflow
  | EmptyTweetToneRequest
  | AlreadyLiked
  | LikeNotFound
  | AlreadyRetweeted
  | RetweetNotFound
  | UserNotFound
  | FollowExists
  | FollowNotExists
  | SelfFollow
  | InvalidCredentials
  | DBError
  | ResponseValidation
  deriving Repr, DecidableEq

/-- The base classes of the error taxonomy (spec section 7: BadRequest 400,
NotFound 404, PermissionDenied 403, NotAuthenticated 401). -/
inductive HTTPClass where
  | badRequest
  | notFound
  | permissionDenied
  | notAuthenticated
  | serverError
  deriving Repr, DecidableEq

/-- Base class of each exception, read off the class declarations in
src/tweets/exceptions.py, src/like/exceptions.py, src/retweet/exceptions.py,
src/follow/exceptions.py and src/auth/exceptions.py (e.g. TweetNotFound
subclasses NotFound, NonOwnerDelete subclasses PermissionDenied, AlreadyLiked
subclasses BadRequest, UserNotFound carries STATUS_CODE 404). -/
def Err.httpClass : Err → HTTPClass
  | .TweetNotFound => .notFound
  | .NonOwnerDelete => .permissionDenied
  | .InvaildParentTweet => .badRequest
  | .MediaUpload => .serverError
  | .EmptyTweet => .badRequest
  | .TweetOverflow => .badRequest
  | .EmptyTweetToneRequest => .badRequest
  | .AlreadyLiked => .badRequest
  | .LikeNotFound => .notFound
  | .AlreadyRetweeted => .badRequest
  | .RetweetNotFound => .notFound
  | .UserNotFound => .notFound
  | .FollowExists => .badRequest
  | .FollowNotExists => .badRequest
  | .SelfFollow => .badRequest
  | .InvalidCredentials => .notAuthenticated
  | .DBError => .serverError
  | .ResponseValidation => .serverError

/-! ### Sorting helper: order_by(col.desc()), and Python list.sort(reverse=True) -/

/-- Descending order on a Nat-valued key. -/
def keyDescLE {α : Type} (key : α → Nat) : α → α → Prop :=
  fun a b => key b ≤ key a

instance {α : Type} (key : α → Nat) : DecidableRel (keyDescLE key) :=
  fun a b => inferInstanceAs (Decidable (key b ≤ key a))

instance {α : Type} (key : α → Nat) : IsTotal α (keyDescLE key) :=
  ⟨fun a b => Nat.le_total (key b) (key a)⟩

instance {α : Type} (key : α → Nat) : IsTrans α (keyDescLE key) :=
  ⟨fun _ _ _ h1 h2 => Nat.le_trans h2 h1⟩

/-- Sort a list in descending order of the key (stable, like both the SQL
ORDER BY ... DESC used through the ORM and Python list.sort(reverse=True)). -/
def sortByDesc {α : Type} (key : α → Nat) (l : List α) : List α :=
  l.insertionSort (keyDescLE key)

theorem sortByDesc_perm {α : Type} (key : α → Nat) (l : List α) :
    List.Perm (sortByDesc key l) l :=
  List.perm_insertionSort _ l

theorem sortByDesc_sorted {α : Type} (key : α → Nat) (l : List α) :
    (sortByDesc key l).Pairwise (fun a b => key b ≤ key a) :=
  List.sorted_insertionSort (keyDescLE key) l

theorem sortByDesc_length {α : Type} (key : α → Nat) (l : List α) :
    (sortByDesc key l).length = l.length :=
  (sortByDesc_perm key l).length_eq

/-! ### Tweets service (src/tweets/service.py and src/tweets/routers.py) -/

/-- Python str.strip() with no argument: remove leading and trailing
whitespace characters. -/
def pyStrip (s : String) : String :=
  String.mk (((s.toList.dropWhile Char.isWhitespace).reverse.dropWhile
    Char.isWhitespace).reverse)

/-- Python truthiness-and-blankness test of the router guard
(if not content or content.strip() == "", routers.py line 75): true when the
content form field is absent, the empty string, or only whitespace. -/
def blankContent : Option String → Bool
  | none => true
  | some s => s == "" || pyStrip s == ""

/-- Python truthiness of an optional string form field (if tone:). -/
def truthyStr : Option String → Bool
  | none => false
  | some s => s != ""

/-- Service delete_tweet (src/tweets/service.py lines 61-73).  The single query
filters on BOTH the tweet id and the requesting user id; when no row matches it
raises TweetNotFound.  On success the row is deleted (cascades to dependent
rows are out of scope for the claims about this function). -/
def delete_tweet (tweet_id current_user_id : Id) (db : DB) :
    DB × Except Err Unit :=
  match db.tweets.find?
      (fun t => t.id == tweet_id && t.user_id == current_user_id) with
  | none => (db, .error .TweetNotFound)
  | some t =>
      ({ db with tweets := db.tweets.filter (fun x => x.id != t.id) }, .ok ())

/-- Service create_new_tweet (src/tweets/service.py lines 18-58).
The parameters beyond the Python ones close over the environment:
revise is the external LLM tone rewriter (change_tweet_tone), newId the UUID
the database generates for the row, now its server-side created_at timestamp;
media is the saved media path (save_tweet_media returns None when no file was
uploaded, and its upload failure modes are not modelled).  Storing a row with a
NULL content column violates the NOT NULL constraint and surfaces as DBError. -/
def create_new_tweet (current_user_id : Id) (content tone : Option String)
    (parent_tweet_id : Option Id) (media : Option String)
    (revise : String → String → String) (newId : Id) (now : Nat) (db : DB) :
    DB × Except Err Tweet :=
  if parent_tweet_id.isSome &&
      !(db.tweets.any (fun t => some t.id == parent_tweet_id)) then
    (db, .error .InvaildParentTweet)
  else
    let media_path : Option String := media
    let revised_tweet : Option String :=
      match tone with
      | some tn => if tn != "" then some (revise (content.getD "") tn) else none
      | none => none
    let content_to_store : Option String :=
      match revised_tweet with
      | some rv => if rv == "" then content else some rv
      | none => content
    match content_to_store with
    | none => (db, .error .DBError)
    | some c =>
        let new_tweet : Tweet :=
          { id := newId
            user_id := current_user_id
            content := c
            media_url := media_path.map (fun p => "http://localhost:8000/" ++ p)
            parent_tweet_id := parent_tweet_id
            created_at := now }
        ({ db with tweets := db.tweets ++ [new_tweet] }, .ok new_tweet)

/-- Route create_tweet (src/tweets/routers.py lines 75-85): the validation
guards in front of the service call.  Note the elif: the 280-character check
runs only when the content is non-blank, and inside the blank branch a truthy
tone is checked before the missing-media check. -/
def create_tweet_route (content tone : Option String)
    (parent_tweet_id : Option Id) (media : Option String)
    (current_user_id : Id) (revise : String → String → String)
    (newId : Id) (now : Nat) (db : DB) : DB × Except Err Tweet :=
  if blankContent content then
    if truthyStr tone then (db, .error .EmptyTweetToneRequest)
    else if media.isNone then (db, .error .EmptyTweet)
    else create_new_tweet current_user_id content tone parent_tweet_id media
      revise newId now db
  else if (content.getD "").length > 280 then (db, .error .TweetOverflow)
  else create_new_tweet current_user_id content tone parent_tweet_id media
    revise newId now db

/-! ### Like service (src/like/service.py) -/

/-- Response of the create_like service. -/
structure LikeResponse where
  like_id : Id
  tweet_id : Id
  like_count : Nat
  deriving Repr, DecidableEq

/-- Service create_like (src/like/service.py lines 14-41).  The insert hits the
uq_like_tweet_user unique constraint exactly when a row with the same
(tweet_id, user_id) pair already exists; the service catches the resulting
IntegrityError, rolls back and raises AlreadyLiked.  The count query after the
commit filters on Like.tweet_id == Like.tweet_id, the column compared with
itself, exactly as written in the source (lines 25-29). -/
def create_like (tweet_id current_user_id : Id) (newId : Id) (now : Nat)
    (db : DB) : DB × Except Err LikeResponse :=
  match db.tweets.find? (fun t => t.id == tweet_id) with
  | none => (db, .error .TweetNotFound)
  | some _ =>
      if db.likes.any
          (fun l => l.tweet_id == tweet_id && l.user_id == current_user_id) then
        (db, .error .AlreadyLiked)
      else
        let db_like : Like :=
          { id := newId, tweet_id := tweet_id, user_id := current_user_id
            created_at := now }
        let db2 : DB := { db with likes := db.likes ++ [db_like] }
        let like_count :=
          (db2.likes.filter (fun l => l.tweet_id == l.tweet_id)).length
        (db2, .ok { like_id := db_like.id, tweet_id := db_like.tweet_id
                    like_count := like_count })

/-- Service delete_like (src/like/service.py lines 44-69); the count query has
the same self-comparison filter as create_like (lines 61-65). -/
def delete_like (tweet_id current_user_id : Id) (db : DB) :
    DB × Except Err Nat :=
  match db.likes.find?
      (fun l => l.tweet_id == tweet_id && l.user_id == current_user_id) with
  | none => (db, .error .LikeNotFound)
  | some lk =>
      let db2 : DB := { db with likes := db.likes.filter (fun l => l.id != lk.id) }
      let like_count :=
        (db2.likes.filter (fun l => l.tweet_id == l.tweet_id)).length
      (db2, .ok like_count)

/-! ### Retweet service (src/retweet/service.py) -/

/-- Service create_retweet (src/retweet/service.py lines 13-31); duplicate
(tweet_id, user_id) pairs violate uq_retweet_tweet_user, the IntegrityError is
caught, the transaction rolled back and AlreadyRetweeted raised. -/
def create_retweet (tweet_id current_user_id : Id) (newId : Id) (now : Nat)
    (db : DB) : DB × Except Err Retweet :=
  match db.tweets.find? (fun t => t.id == tweet_id) with
  | none => (db, .error .TweetNotFound)
  | some _ =>
      if db.retweets.any
          (fun r => r.tweet_id == tweet_id && r.user_id == current_user_id) then
        (db, .error .AlreadyRetweeted)
      else
        let db_retweet : Retweet :=
          { id := newId, tweet_id := tweet_id, user_id := current_user_id
            created_at := now }
        ({ db with retweets := db.retweets ++ [db_retweet] }, .ok db_retweet)

/-! ### Feed composition (src/tweets/service.py, read-only queries) -/

/-- Per-tweet like count aggregate (func.count over likes filtered on the
tweet id), as used by get_home_page_tweets and the likes relationship. -/
def likeCountOf (db : DB) (tid : Id) : Nat :=
  (db.likes.filter (fun l => l.tweet_id == tid)).length

/-- Per-tweet retweet count aggregate. -/
def retweetCountOf (db : DB) (tid : Id) : Nat :=
  (db.retweets.filter (fun r => r.tweet_id == tid)).length

/-- Per-tweet reply count aggregate (tweets whose parent_tweet_id is the
given tweet). -/
def replyCountOf (db : DB) (tid : Id) : Nat :=
  (db.tweets.filter (fun t => t.parent_tweet_id == some tid)).length

/-- UserInfo block of the home page response (src/tweets/schemas.py). -/
structure UserInfo where
  id : Id
  username : String
  full_name : String
  profile_image_url : Option String
  verified_on : Option Nat
  deriving Repr, DecidableEq

/-- One row of the home page response (schemas.TweetHomePageResponse); the
derived media_type string is response shaping with no information beyond
media_url and is omitted. -/
structure TweetHomePageResponse where
  id : Id
  content : String
  media_url : Option String
  created_at : Nat
  user : UserInfo
  like_count : Nat
  retweet_count : Nat
  comment_count : Nat
  deriving Repr, DecidableEq

/-- The followed_id column of the follows rows whose follower is the given
user (the following_subquery of get_home_page_tweets). -/
def followedIds (current_user_id : Id) (db : DB) : List Id :=
  (db.follows.filter (fun f => f.follower_id == current_user_id)).map
    (fun f => f.followed_id)

/-- The base query of get_home_page_tweets before the tab filter (src/tweets/
service.py lines 79-84): top-level tweets inner-joined with their author. -/
def homeJoinedRows (db : DB) : List (Tweet × User) :=
  (db.tweets.filter (fun t => t.parent_tweet_id.isNone)).filterMap
    (fun t => (db.users.find? (fun u => u.id == t.user_id)).map
      (fun u => (t, u)))

/-- The base query after the optional following filter (src/tweets/service.py
lines 86-92): when tab == "following" the authors are restricted to the
viewer's followed set. -/
def homeBaseRows (tab : String) (current_user_id : Id) (db : DB) :
    List (Tweet × User) :=
  if tab == "following" then
    (homeJoinedRows db).filter
      (fun tu => (followedIds current_user_id db).contains tu.1.user_id)
  else homeJoinedRows db

/-- Response shaping of one home page row (src/tweets/service.py lines
96-136), with the three per-row aggregate counts. -/
def mkHomeRow (db : DB) (tu : Tweet × User) : TweetHomePageResponse :=
  { id := tu.1.id
    content := tu.1.content
    media_url := tu.1.media_url
    created_at := tu.1.created_at
    user := { id := tu.2.id, username := tu.2.username
              full_name := tu.2.full_name
              profile_image_url := tu.2.profile_image_url
              verified_on := tu.2.verified_on }
    like_count := likeCountOf db tu.1.id
    retweet_count := retweetCountOf db tu.1.id
    comment_count := replyCountOf db tu.1.id }

/-- Service get_home_page_tweets (src/tweets/service.py lines 76-137):
the base rows ordered by created_at descending, paginated with offset/limit,
then shaped per row. -/
def get_home_page_tweets (tab : String) (skip limit : Nat)
    (current_user_id : Id) (db : DB) : List TweetHomePageResponse :=
  (((sortByDesc (fun tu => tu.1.created_at)
      (homeBaseRows tab current_user_id db)).drop skip).take limit).map
    (mkHomeRow db)

/-- The reply-ids page of get_tweet_details (src/tweets/service.py lines
163-170): ids of tweets whose parent is the given tweet, ordered by created_at
descending, paginated with reply_skip/reply_limit.  The rest of the detail
response (the existence check and the joined aggregates) is not needed by any
claim and is not modelled. -/
def get_tweet_detail_reply_ids (tweet_id : Id) (reply_skip reply_limit : Nat)
    (db : DB) : List Id :=
  (((sortByDesc (fun t => t.created_at)
      (db.tweets.filter (fun t => t.parent_tweet_id == some tweet_id))).drop
        reply_skip).take reply_limit).map (fun t => t.id)

/-- One entry of the get_user_tweets response (the per-row dict built in
src/tweets/service.py lines 224-234 and 247-258); the joined user objects are
represented by their ids. -/
structure UserTweetEntry where
  id : Id
  content : String
  media_url : Option String
  created_at : Nat
  user_id : Id
  retweeted_by : Option Id
  likes_count : Nat
  retweets_count : Nat
  replies_count : Nat
  is_retweet : Bool
  deriving Repr, DecidableEq

/-- Entry for one of the user's own top-level tweets (is_retweet False,
created_at taken from the tweet row). -/
def origEntry (db : DB) (t : Tweet) : UserTweetEntry :=
  { id := t.id, content := t.content, media_url := t.media_url
    created_at := t.created_at, user_id := t.user_id, retweeted_by := none
    likes_count := likeCountOf db t.id, retweets_count := retweetCountOf db t.id
    replies_count := replyCountOf db t.id, is_retweet := false }

/-- Entry for a tweet the user retweeted (is_retweet True, created_at taken
from the retweet row, retweeted_by the retweeting user). -/
def retweetEntry (db : DB) (t : Tweet) (r : Retweet) : UserTweetEntry :=
  { id := t.id, content := t.content, media_url := t.media_url
    created_at := r.created_at, user_id := t.user_id
    retweeted_by := some r.user_id
    likes_count := likeCountOf db t.id, retweets_count := retweetCountOf db t.id
    replies_count := replyCountOf db t.id, is_retweet := true }

/-- The page of the user's own top-level tweets taken by get_user_tweets
(tweets_query, offset skip limit limit, no order_by: table order). -/
def userOwnTweetsPage (user_id : Id) (skip limit : Nat) (db : DB) :
    List UserTweetEntry :=
  (((db.tweets.filter
      (fun t => t.user_id == user_id && t.parent_tweet_id.isNone)).drop
        skip).take limit).map (origEntry db)

/-- The page of tweets the user retweeted, taken by get_user_tweets
(retweets_query: tweets joined with the retweets of the user, offset/limit,
then per row the user's retweet row is looked up with first()). -/
def userRetweetsPage (user_id : Id) (skip limit : Nat) (db : DB) :
    List UserTweetEntry :=
  (((db.tweets.filter
      (fun t => db.retweets.any
        (fun r => r.tweet_id == t.id && r.user_id == user_id))).drop
          skip).take limit).filterMap
    (fun t => (db.retweets.find?
        (fun r => r.tweet_id == t.id && r.user_id == user_id)).map
      (retweetEntry db t))

/-- Service get_user_tweets (src/tweets/service.py lines 191-262): after the
user-existence check, the two separately paginated lists are concatenated and
the combined list sorted by the entry created_at, descending
(combined_results.sort(key=..., reverse=True)). -/
def get_user_tweets (user_id : Id) (skip limit : Nat) (db : DB) :
    Except Err (List UserTweetEntry) :=
  match db.users.find? (fun u => u.id == user_id) with
  | none => .error .UserNotFound
  | some _ =>
      .ok (sortByDesc (fun e => e.created_at)
        (userOwnTweetsPage user_id skip limit db ++
          userRetweetsPage user_id skip limit db))

/-- Service get_user_replies (src/tweets/service.py lines 265-302): the user's
reply tweets (parent_tweet_id not null) ordered by created_at descending and
paginated.  The per-row response dict maps the page one-to-one and carries no
data needed by the claims, so the page of tweet rows itself is returned. -/
def get_user_replies (user_id : Id) (skip limit : Nat) (db : DB) :
    Except Err (List Tweet) :=
  match db.users.find? (fun u => u.id == user_id) with
  | none => .error .UserNotFound
  | some _ =>
      .ok (((sortByDesc (fun t => t.created_at)
        (db.tweets.filter
          (fun t => t.user_id == user_id && t.parent_tweet_id.isSome))).drop
            skip).take limit)

/-! ### Follow service (src/follow/service.py) -/

/-- One entry of the follow listings (src/follow/schemas.py, class
FollowUserDetails): full_name, username, bio — a required str — then the
optional profile_image_url and the is_followed flag.  The schema exposes no id
field; pydantic ignores the extra id keyword get_followers_details passes. -/
structure FollowUserDetails where
  full_name : String
  username : String
  bio : String
  profile_image_url : Option String
  is_followed : Bool
  deriving Repr, DecidableEq

/-- Construction of one FollowUserDetails entry for a listed profile user, as
done per loop iteration in src/follow/service.py lines 94-113 and 128-147:
the is_followed flag is the viewer's own follow query on the listed user, and
because the schema requires bio to be a str, a profile whose bio column is
NULL makes pydantic raise a ValidationError. -/
def mkFollowUserDetails (current_user_id : Id) (db : DB) (profile : User) :
    Except Err FollowUserDetails :=
  match profile.bio with
  | none => .error .ResponseValidation
  | some b =>
      .ok { full_name := profile.full_name
            username := profile.username
            bio := b
            profile_image_url := profile.profile_image_url
            is_followed := db.follows.any
              (fun g => g.follower_id == current_user_id &&
                g.followed_id == profile.id) }

/-- The for loop over the listed profiles: entries are accumulated in order
and the first failing construction aborts the request with its error. -/
def buildDetails (current_user_id : Id) (db : DB) :
    List User → Except Err (List FollowUserDetails)
  | [] => .ok []
  | u :: rest =>
      match mkFollowUserDetails current_user_id db u with
      | .error e => .error e
      | .ok d =>
          match buildDetails current_user_id db rest with
          | .error e => .error e
          | .ok ds => .ok (d :: ds)

/-- The profiles listed by get_followers_details: one per row of
user.followers (the follows rows whose followed_id is the user), mapped
through the follower relationship.  A follows row whose follower_id has no
users row cannot exist under the foreign key and is dropped by the join. -/
def followerProfiles (user_id : Id) (db : DB) : List User :=
  (db.follows.filter (fun f => f.followed_id == user_id)).filterMap
    (fun f => db.users.find? (fun u => u.id == f.follower_id))

/-- The profiles listed by get_following_details: one per row of
user.following (the follows rows whose follower_id is the user), mapped
through the followed relationship. -/
def followingProfiles (user_id : Id) (db : DB) : List User :=
  (db.follows.filter (fun f => f.follower_id == user_id)).filterMap
    (fun f => db.users.find? (fun u => u.id == f.followed_id))

/-- Service get_followers_details (src/follow/service.py lines 83-114): after
the user-existence check, one response entry per follower profile, built in
order; there is no pagination, and a follower profile without a bio fails the
response-model validation. -/
def get_followers_details (user_id current_user_id : Id) (db : DB) :
    Except Err (List FollowUserDetails) :=
  match db.users.find? (fun u => u.id == user_id) with
  | none => .error .UserNotFound
  | some _ => buildDetails current_user_id db (followerProfiles user_id db)

/-- Service get_following_details (src/follow/service.py lines 117-148): the
mirror listing over user.following, with the same per-entry construction and
no pagination. -/
def get_following_details (user_id current_user_id : Id) (db : DB) :
    Except Err (List FollowUserDetails) :=
  match db.users.find? (fun u => u.id == user_id) with
  | none => .error .UserNotFound
  | some _ => buildDetails current_user_id db (followingProfiles user_id db)

/-- One row of the follow-suggestions select (src/follow/service.py lines
158-168: id, full_name, username, profile_image_url). -/
structure SuggestionRow where
  id : Id
  full_name : String
  username : String
  profile_image_url : Option String
  deriving Repr, DecidableEq

/-- The eligible rows of get_follow_suggestions (src/follow/service.py lines
151-171): every user other than the viewer that the viewer does not already
follow, in table order. -/
def suggestion_rows (current_user_id : Id) (db : DB) : List SuggestionRow :=
  (db.users.filter (fun u =>
    u.id != current_user_id &&
      !(db.follows.any (fun f =>
        f.follower_id == current_user_id && f.followed_id == u.id)))).map
    (fun u => { id := u.id, full_name := u.full_name, username := u.username
                profile_image_url := u.profile_image_url })

/-- The contract of Python random.sample(xs, k): a list of k elements drawn
without replacement from distinct positions of xs, in arbitrary order — i.e. a
permutation of some length-k sublist of xs. -/
def randomSampleSpec {α : Type} (xs : List α) (k : Nat) (ys : List α) : Prop :=
  ys.length = k ∧ ∃ zs, zs.Sublist xs ∧ List.Perm ys zs

/-- The possible return values of get_follow_suggestions (src/follow/service.py
lines 151-183): random.sample over the eligible rows with sample size
min(len(users), limit). -/
def get_follow_suggestions_can_return (current_user_id : Id) (limit : Nat)
    (db : DB) (out : List SuggestionRow) : Prop :=
  randomSampleSpec (suggestion_rows current_user_id db)
    (min (suggestion_rows current_user_id db).length limit) out

/-! ### Login (src/auth/routers.py lines 34-55) -/

/-- Successful outcome of the login route: either the verify-your-email
message (no token) or a bearer token. -/
inductive LoginOk where
  | verifyMessage
  | bearer (token : String)
  deriving Repr, DecidableEq

/-- Route login (src/auth/routers.py lines 34-55).  verifyPw is the external
password-hash check (utils.verify) and mkToken the JWT issuance
(jwt.create_access_token over the user's email); both are parameters of the
embedding.  The user is looked up by email; a missing user raises
InvalidCredentials; an unverified user gets the verification message before
the password is ever checked; only then is the password verified. -/
def login (email password : String) (verifyPw : String → String → Bool)
    (mkToken : String → String) (db : DB) : Except Err LoginOk :=
  match db.users.find? (fun u => u.email == email) with
  | none => .error .InvalidCredentials
  | some user =>
      if user.verified_on.isNone then .ok .verifyMessage
      else if !(verifyPw password user.password) then .error .InvalidCredentials
      else .ok (.bearer (mkToken user.email))

/-! ### Concrete states used by the counterexamples and witnesses -/

/-- A minimal verified user record. -/
def mkUser (i : Id) : User :=
  { id := i, username := "user" ++ toString i, email := "u" ++ toString i ++ "@x.com"
    password := "hash" ++ toString i, full_name := "User " ++ toString i
    bio := some ("about user " ++ toString i)
    profile_image_url := none, verified_on := some 1 }

/-- State with two users and one tweet authored by user 1. -/
def dbOneTweet : DB :=
  { users := [mkUser 1, mkUser 2]
    tweets := [{ id := 1, user_id := 1, content := "hello", media_url := none
                 parent_tweet_id := none, created_at := 10 }]
    retweets := [], likes := [], follows := [] }

/-- State with two tweets and one like, by user 9, on tweet 2 only. -/
def dbForeignLike : DB :=
  { users := [mkUser 5, mkUser 9]
    tweets := [{ id := 1, user_id := 5, content := "a", media_url := none
                 parent_tweet_id := none, created_at := 10 },
               { id := 2, user_id := 9, content := "b", media_url := none
                 parent_tweet_id := none, created_at := 11 }]
    retweets := []
    likes := [{ id := 7, tweet_id := 2, user_id := 9, created_at := 12 }]
    follows := [] }

/-- A string of 281 space characters. -/
def spaces281 : String := String.mk (List.replicate 281 ' ')

/-- State where user 1 follows user 2 and user 2 authored two top-level
tweets. -/
def dbFollowFeed : DB :=
  { users := [mkUser 1, mkUser 2]
    tweets := [{ id := 1, user_id := 2, content := "old", media_url := none
                 parent_tweet_id := none, created_at := 10 },
               { id := 2, user_id := 2, content := "new", media_url := none
                 parent_tweet_id := none, created_at := 20 }]
    retweets := [], likes := []
    follows := [{ follower_id := 1, followed_id := 2, created_at := 5 }] }

/-- State where user 1 authored top-level tweet 1 and retweeted tweet 2
(authored by user 2). -/
def dbRetweetMerge : DB :=
  { users := [mkUser 1, mkUser 2]
    tweets := [{ id := 1, user_id := 1, content := "mine", media_url := none
                 parent_tweet_id := none, created_at := 10 },
               { id := 2, user_id := 2, content := "theirs", media_url := none
                 parent_tweet_id := none, created_at := 11 }]
    retweets := [{ id := 3, tweet_id := 2, user_id := 1, created_at := 20 }]
    likes := [], follows := [] }

/-! ### Claims -/

/-- Claim C1: the spec says deleting an existing tweet that the requester does
not own fails with the permission-denied error.  The code disagrees: the
delete query of src/tweets/service.py lines 62-66 filters on the tweet id AND
the requester id at once, so for the existing tweet 1 (authored by user 1) a
delete by user 2 raises TweetNotFound — a NotFound, not a PermissionDenied —
and the PermissionDenied subclass NonOwnerDelete declared in
src/tweets/exceptions.py is never raised.  This theorem evaluates the code at
that failing input. -/
theorem delete_tweet_nonowner_yields_notfound :
    dbOneTweet.tweets.any (fun t => t.id == 1) = true
    ∧ dbOneTweet.tweets.all
        (fun t => !(t.id == 1) || !(t.user_id == 2)) = true
    ∧ delete_tweet 1 2 dbOneTweet = (dbOneTweet, .error .TweetNotFound)
    ∧ Err.httpClass .TweetNotFound = .notFound
    ∧ Err.httpClass .TweetNotFound ≠ HTTPClass.permissionDenied := by
  refine ⟨rfl, rfl, rfl, rfl, by decide⟩

/-- Claim C2: the spec says a successful createLike returns the like count of
the target tweet and likes on other tweets do not affect it.  The code
disagrees: the count query of src/like/service.py lines 25-29 filters on
Like.tweet_id == Like.tweet_id — the column compared with itself — so it
counts every like row in the table.  On a state where tweet 2 already has one
like, liking tweet 1 reports like_count 2 although tweet 1 then has exactly
one like.  This theorem evaluates the code at that failing input. -/
theorem create_like_count_is_table_wide :
    (create_like 1 5 11 50 dbForeignLike).2 =
      .ok { like_id := 11, tweet_id := 1, like_count := 2 }
    ∧ likeCountOf (create_like 1 5 11 50 dbForeignLike).1 1 = 1 := by
  refine ⟨rfl, rfl⟩

/-- Claim C3: the spec says every persisted tweet has content of at most 280
characters and longer submitted content always fails with the overflow error.
The code disagrees: the router guard of src/tweets/routers.py lines 75-81
tests the 280-character limit in an elif that is skipped whenever the content
is blank after strip(), so a content of 281 space characters submitted with a
media file bypasses the length check and is persisted verbatim with length
281.  This theorem evaluates the code at that failing input. -/
theorem whitespace_overflow_content_persisted :
    spaces281.length = 281
    ∧ (create_tweet_route (some spaces281) none none (some "img.png") 1
        (fun c _ => c) 42 9 dbOneTweet).2 =
      .ok { id := 42, user_id := 1, content := spaces281
            media_url := some "http://localhost:8000/img.png"
            parent_tweet_id := none, created_at := 9 }
    ∧ ((create_tweet_route (some spaces281) none none (some "img.png") 1
        (fun c _ => c) 42 9 dbOneTweet).1.tweets.map
          (fun t => t.content.length)) = [5, 281] := by
  refine ⟨rfl, rfl, rfl⟩

/-- Claim C4 counterexample: the claim says a blank-content, no-media create
always fails with the empty-content error for every value of the tone input,
but with tone "happy" the router raises EmptyTweetToneRequestError instead
(src/tweets/routers.py lines 75-79). -/
theorem blank_with_tone_is_tone_error :
    (create_tweet_route none (some "happy") none none 1 (fun c _ => c) 42 9
        dbOneTweet).2 = .error .EmptyTweetToneRequest
    ∧ (create_tweet_route none (some "happy") none none 1 (fun c _ => c) 42 9
        dbOneTweet).2 ≠ .error .EmptyTweet := by
  refine ⟨rfl, by decide⟩

/-- Claim C4 as amended: for every request with blank (absent, empty or
whitespace-only) content and no media, createTweet fails without touching the
state; the error is the cannot-change-tone-of-empty-tweet error when a
non-empty tone is supplied and the empty-content error otherwise, for every
value of the remaining inputs. -/
theorem blank_no_media_error_kind (content tone : Option String)
    (parent_tweet_id : Option Id) (current_user_id newId : Id) (now : Nat)
    (revise : String → String → String) (db : DB)
    (hb : blankContent content = true) :
    create_tweet_route content tone parent_tweet_id none current_user_id
        revise newId now db =
      (db, .error (if truthyStr tone then .EmptyTweetToneRequest
                   else .EmptyTweet)) := by
  cases htone : truthyStr tone <;>
    simp [create_tweet_route, hb, htone]

/-- Witness for the amended claim C4 at a concrete input. -/
theorem blank_no_media_error_kind_witness :
    create_tweet_route (some "   ") none none none 1 (fun c _ => c) 42 9
        dbOneTweet = (dbOneTweet, .error .EmptyTweet) := by
  have h := blank_no_media_error_kind (some "   ") none none 1 42 9
    (fun c _ => c) dbOneTweet (by decide)
  simpa using h

/-! ### Pagination helper lemmas -/

theorem page_length_le {α : Type} (s n : Nat) (l : List α) :
    ((l.drop s).take n).length ≤ n :=
  List.length_take_le n (l.drop s)

theorem page_eq_nil {α : Type} {s : Nat} (n : Nat) {l : List α}
    (h : l.length ≤ s) : (l.drop s).take n = [] := by
  rw [List.drop_eq_nil_of_le h, List.take_nil]

theorem length_filterMap_of_isSome {α β : Type} (g : α → Option β) :
    ∀ l : List α, (∀ x ∈ l, (g x).isSome) →
      (l.filterMap g).length = l.length := by
  intro l
  induction l with
  | nil => intro _; rfl
  | cons a l ih =>
      intro h
      have ha : (g a).isSome := h a (List.mem_cons_self a l)
      obtain ⟨b, hb⟩ := Option.isSome_iff_exists.mp ha
      rw [List.filterMap_cons, hb]
      simp only [List.length_cons]
      rw [ih (fun x hx => h x (List.mem_cons_of_mem a hx))]

theorem buildDetails_ok_length (viewer : Id) (db : DB) :
    ∀ (l : List User) (out : List FollowUserDetails),
      buildDetails viewer db l = .ok out → out.length = l.length := by
  intro l
  induction l with
  | nil =>
      intro out h
      unfold buildDetails at h
      simp only [Except.ok.injEq] at h
      subst h
      rfl
  | cons u rest ih =>
      intro out h
      unfold buildDetails at h
      cases hmk : mkFollowUserDetails viewer db u with
      | error e => rw [hmk] at h; exact Except.noConfusion h
      | ok d =>
          rw [hmk] at h
          cases hb : buildDetails viewer db rest with
          | error e => rw [hb] at h; exact Except.noConfusion h
          | ok ds =>
              rw [hb] at h
              simp only [Except.ok.injEq] at h
              subst h
              simp [ih ds hb]

theorem buildDetails_ok_bio (viewer : Id) (db : DB) :
    ∀ (l : List User) (out : List FollowUserDetails),
      buildDetails viewer db l = .ok out → ∀ u ∈ l, u.bio.isSome := by
  intro l
  induction l with
  | nil =>
      intro out _ u hu
      exact absurd hu (List.not_mem_nil u)
  | cons v rest ih =>
      intro out h u hu
      unfold buildDetails at h
      cases hmk : mkFollowUserDetails viewer db v with
      | error e => rw [hmk] at h; exact Except.noConfusion h
      | ok d =>
          rw [hmk] at h
          cases hb : buildDetails viewer db rest with
          | error e => rw [hb] at h; exact Except.noConfusion h
          | ok ds =>
              rcases List.mem_cons.mp hu with hv | hrest
              · subst hv
                cases hbio : u.bio with
                | none =>
                    exfalso
                    unfold mkFollowUserDetails at hmk
                    rw [hbio] at hmk
                    exact Except.noConfusion hmk
                | some b => rfl
              · exact ih ds hb u hrest

theorem homeBaseRows_length_le (tab : String) (viewer : Id) (db : DB) :
    (homeBaseRows tab viewer db).length ≤ db.tweets.length := by
  have hj : (homeJoinedRows db).length ≤ db.tweets.length :=
    Nat.le_trans (List.length_filterMap_le _ _) (List.length_filter_le _ _)
  unfold homeBaseRows
  split
  · exact Nat.le_trans (List.length_filter_le _ _) hj
  · exact hj

/-- Claim C5 counterexample: the claim says every paginated listing returns at
most limit items in one page with limit bounded to 1-100.  userTweets with
skip 0 and limit 1 (in range) on a state where user 1 has one top-level tweet
and one retweet returns two items: the service paginates the original-tweets
query and the retweets query separately with the same limit and merges both
pages (src/tweets/service.py lines 220-262).  Moreover its route declares
skip and limit with no bounds at all (src/tweets/routers.py lines 253-258). -/
theorem user_tweets_page_exceeds_limit :
    (get_user_tweets 1 0 1 dbRetweetMerge).map (fun l => l.length) =
      .ok 2 := by
  rfl

/-- Claim C5 as amended: the home feed and tweet-detail reply listings
(whose routes validate skip at least 0 and limit 1-100) return at most limit
items, and so does userReplies; userTweets returns at most limit original
tweets plus at most limit retweets, so up to two times limit items, and its
route declares no bounds on skip or limit; the follower and the following
listings take no pagination parameters — when they succeed they return one
entry per follow edge, and they succeed only when every listed profile has a
bio (the response model requires it, so a missing bio fails the request
instead of returning a page); and in every one of the paginated listings an
offset at or past the end of the data yields an empty list rather than an
error. -/
theorem pagination_behavior (tab : String) (viewer uid tid : Id)
    (skip limit : Nat) (db : DB) :
    (get_home_page_tweets tab skip limit viewer db).length ≤ limit
    ∧ (db.tweets.length ≤ skip →
        get_home_page_tweets tab skip limit viewer db = [])
    ∧ (get_tweet_detail_reply_ids tid skip limit db).length ≤ limit
    ∧ (db.tweets.length ≤ skip →
        get_tweet_detail_reply_ids tid skip limit db = [])
    ∧ (∀ out, get_user_replies uid skip limit db = .ok out →
        out.length ≤ limit ∧ (db.tweets.length ≤ skip → out = []))
    ∧ (∀ out, get_user_tweets uid skip limit db = .ok out →
        out.length ≤ limit + limit ∧ (db.tweets.length ≤ skip → out = []))
    ∧ (∀ out, get_followers_details uid viewer db = .ok out →
        ((∀ f ∈ db.follows,
            (db.users.find? (fun x => x.id == f.follower_id)).isSome) →
          out.length =
            (db.follows.filter (fun f => f.followed_id == uid)).length)
        ∧ (∀ pu ∈ followerProfiles uid db, pu.bio.isSome))
    ∧ (∀ out, get_following_details uid viewer db = .ok out →
        ((∀ f ∈ db.follows,
            (db.users.find? (fun x => x.id == f.followed_id)).isSome) →
          out.length =
            (db.follows.filter (fun f => f.follower_id == uid)).length)
        ∧ (∀ pu ∈ followingProfiles uid db, pu.bio.isSome)) := by
  refine ⟨?_, ?_, ?_, ?_, ?_, ?_, ?_, ?_⟩
  · unfold get_home_page_tweets
    rw [List.length_map]
    exact page_length_le _ _ _
  · intro h
    unfold get_home_page_tweets
    rw [page_eq_nil limit (by
      rw [sortByDesc_length]
      exact Nat.le_trans (homeBaseRows_length_le tab viewer db) h)]
    rfl
  · unfold get_tweet_detail_reply_ids
    rw [List.length_map]
    exact page_length_le _ _ _
  · intro h
    unfold get_tweet_detail_reply_ids
    rw [page_eq_nil limit (by
      rw [sortByDesc_length]
      exact Nat.le_trans (List.length_filter_le _ _) h)]
    rfl
  · intro out hout
    unfold get_user_replies at hout
    cases hfind : db.users.find? (fun u => u.id == uid) with
    | none =>
        simp only [hfind] at hout
        exact Except.noConfusion hout
    | some w =>
        simp only [hfind, Except.ok.injEq] at hout
        subst hout
        refine ⟨page_length_le _ _ _, fun h => ?_⟩
        exact page_eq_nil limit (by
          rw [sortByDesc_length]
          exact Nat.le_trans (List.length_filter_le _ _) h)
  · intro out hout
    unfold get_user_tweets at hout
    cases hfind : db.users.find? (fun u => u.id == uid) with
    | none =>
        simp only [hfind] at hout
        exact Except.noConfusion hout
    | some w =>
        simp only [hfind, Except.ok.injEq] at hout
        subst hout
        constructor
        · rw [sortByDesc_length, List.length_append]
          have h1 : (userOwnTweetsPage uid skip limit db).length ≤ limit := by
            unfold userOwnTweetsPage
            rw [List.length_map]
            exact page_length_le _ _ _
          have h2 : (userRetweetsPage uid skip limit db).length ≤ limit := by
            unfold userRetweetsPage
            exact Nat.le_trans (List.length_filterMap_le _ _)
              (page_length_le _ _ _)
          exact Nat.add_le_add h1 h2
        · intro h
          have h1 : userOwnTweetsPage uid skip limit db = [] := by
            unfold userOwnTweetsPage
            rw [page_eq_nil limit
              (Nat.le_trans (List.length_filter_le _ _) h)]
            rfl
          have h2 : userRetweetsPage uid skip limit db = [] := by
            unfold userRetweetsPage
            rw [page_eq_nil limit
              (Nat.le_trans (List.length_filter_le _ _) h)]
            rfl
          rw [h1, h2]
          rfl
  · intro out hout
    unfold get_followers_details at hout
    cases hfind : db.users.find? (fun u => u.id == uid) with
    | none =>
        simp only [hfind] at hout
        exact Except.noConfusion hout
    | some w =>
        simp only [hfind] at hout
        constructor
        · intro hfk
          rw [buildDetails_ok_length viewer db _ out hout]
          unfold followerProfiles
          refine length_filterMap_of_isSome _ _ (fun f hf => ?_)
          exact hfk f (List.mem_of_mem_filter hf)
        · exact buildDetails_ok_bio viewer db _ out hout
  · intro out hout
    unfold get_following_details at hout
    cases hfind : db.users.find? (fun u => u.id == uid) with
    | none =>
        simp only [hfind] at hout
        exact Except.noConfusion hout
    | some w =>
        simp only [hfind] at hout
        constructor
        · intro hfk
          rw [buildDetails_ok_length viewer db _ out hout]
          unfold followingProfiles
          refine length_filterMap_of_isSome _ _ (fun f hf => ?_)
          exact hfk f (List.mem_of_mem_filter hf)
        · exact buildDetails_ok_bio viewer db _ out hout

/-- Witness for the amended claim C5 at concrete inputs: offset 5 is past the
end of the two-tweet state, the followers listing of user 2 returns the one
entry of its one follow edge (the follower's bio validating), and the empty
following listing of user 2 matches its zero edges. -/
theorem pagination_behavior_witness :
    get_home_page_tweets "all" 5 5 1 dbFollowFeed = []
    ∧ ([] : List UserTweetEntry).length ≤ 5 + 5
    ∧ [({ full_name := "User 1", username := "user1", bio := "about user 1"
          profile_image_url := none, is_followed := false } :
          FollowUserDetails)].length =
        (dbFollowFeed.follows.filter (fun f => f.followed_id == 2)).length
    ∧ ([] : List FollowUserDetails).length =
        (dbFollowFeed.follows.filter (fun f => f.follower_id == 2)).length := by
  have h := pagination_behavior "all" 1 2 1 5 5 dbFollowFeed
  exact ⟨h.2.1 (by decide), (h.2.2.2.2.2.1 [] (by rfl)).1,
    (h.2.2.2.2.2.2.1
      [{ full_name := "User 1", username := "user1", bio := "about user 1"
         profile_image_url := none, is_followed := false }] (by rfl)).1
      (by decide),
    (h.2.2.2.2.2.2.2 [] (by rfl)).1 (by decide)⟩

/-! ### Claim C6: the following tab of the home feed -/

theorem sortByDesc_mem {α : Type} (key : α → Nat) {l : List α} {x : α} :
    x ∈ sortByDesc key l ↔ x ∈ l :=
  List.mem_insertionSort _

theorem mem_homeJoinedRows {db : DB} {tu : Tweet × User}
    (h : tu ∈ homeJoinedRows db) :
    tu.1 ∈ db.tweets ∧ tu.1.parent_tweet_id = none ∧ tu.2.id = tu.1.user_id := by
  unfold homeJoinedRows at h
  obtain ⟨t, ht, hmap⟩ := List.mem_filterMap.mp h
  have htf := List.mem_filter.mp ht
  cases hfind : db.users.find? (fun u => u.id == t.user_id) with
  | none => rw [hfind] at hmap; exact Option.noConfusion hmap
  | some u =>
      rw [hfind] at hmap
      injection hmap with hmap
      have hbeq := List.find?_some hfind
      have hu : u.id = t.user_id := eq_of_beq hbeq
      subst hmap
      exact ⟨htf.1, Option.isNone_iff_eq_none.mp htf.2, hu⟩

theorem mem_followedIds {viewer x : Id} {db : DB}
    (h : x ∈ followedIds viewer db) :
    ∃ f ∈ db.follows, f.follower_id = viewer ∧ f.followed_id = x := by
  unfold followedIds at h
  obtain ⟨f, hf, hfx⟩ := List.mem_map.mp h
  have hff := List.mem_filter.mp hf
  exact ⟨f, hff.1, eq_of_beq hff.2, hfx⟩

theorem homeBaseRows_following (viewer : Id) (db : DB) :
    homeBaseRows "following" viewer db =
      (homeJoinedRows db).filter
        (fun tu => (followedIds viewer db).contains tu.1.user_id) := by
  rfl

/-- Claim C6: every row of the following tab of the home feed corresponds to a
stored top-level tweet whose author the viewer follows, and the page is
ordered by creation time descending (src/tweets/service.py lines 76-94). -/
theorem home_following_feed_invariants (viewer : Id) (skip limit : Nat)
    (db : DB) :
    (∀ row ∈ get_home_page_tweets "following" skip limit viewer db,
      ∃ t ∈ db.tweets, t.id = row.id ∧ t.parent_tweet_id = none ∧
        t.user_id = row.user.id ∧ row.created_at = t.created_at ∧
        ∃ f ∈ db.follows, f.follower_id = viewer ∧ f.followed_id = t.user_id)
    ∧ (get_home_page_tweets "following" skip limit viewer db).Pairwise
        (fun a b => b.created_at ≤ a.created_at) := by
  constructor
  · intro row hrow
    unfold get_home_page_tweets at hrow
    obtain ⟨tu, htu, hmk⟩ := List.mem_map.mp hrow
    have htu2 : tu ∈ homeBaseRows "following" viewer db :=
      (sortByDesc_mem _).mp (List.mem_of_mem_drop (List.mem_of_mem_take htu))
    rw [homeBaseRows_following] at htu2
    have hfil := List.mem_filter.mp htu2
    have hjr := mem_homeJoinedRows hfil.1
    have hcontains : tu.1.user_id ∈ followedIds viewer db := by
      simpa using hfil.2
    obtain ⟨f, hfm, hfo, hfd⟩ := mem_followedIds hcontains
    subst hmk
    refine ⟨tu.1, hjr.1, rfl, hjr.2.1, ?_, rfl, f, hfm, hfo, hfd⟩
    simp [mkHomeRow, hjr.2.2]
  · unfold get_home_page_tweets
    refine List.Pairwise.map _ (fun a b h => h) ?_
    exact List.Pairwise.sublist
      ((List.take_sublist _ _).trans (List.drop_sublist _ _))
      (sortByDesc_sorted _ _)

/-- Witness for claim C6 at a concrete input. -/
theorem home_following_feed_invariants_witness :
    (∃ t ∈ dbFollowFeed.tweets,
      t.id = (mkHomeRow dbFollowFeed
        ({ id := 2, user_id := 2, content := "new", media_url := none
           parent_tweet_id := none, created_at := 20 }, mkUser 2)).id ∧
      t.parent_tweet_id = none ∧
      t.user_id = (mkHomeRow dbFollowFeed
        ({ id := 2, user_id := 2, content := "new", media_url := none
           parent_tweet_id := none, created_at := 20 }, mkUser 2)).user.id ∧
      (mkHomeRow dbFollowFeed
        ({ id := 2, user_id := 2, content := "new", media_url := none
           parent_tweet_id := none, created_at := 20 }, mkUser 2)).created_at
        = t.created_at ∧
      ∃ f ∈ dbFollowFeed.follows, f.follower_id = 1 ∧
        f.followed_id = t.user_id)
    ∧ (get_home_page_tweets "following" 0 5 1 dbFollowFeed).Pairwise
        (fun a b => b.created_at ≤ a.created_at) := by
  have h := home_following_feed_invariants 1 0 5 dbFollowFeed
  exact ⟨h.1 _ (by decide), h.2⟩

/-! ### Claim C7: duplicate like/retweet translated to a domain error -/

/-- Claim C7: when the target tweet exists and the (tweet, user) pair already
has a Like (resp. Retweet) row, create_like (resp. create_retweet) returns the
domain already-liked / already-retweeted BadRequest error — never a raw
constraint failure — and leaves the state unchanged (the transaction is rolled
back: src/like/service.py lines 36-41, src/retweet/service.py lines 26-31). -/
theorem duplicate_like_retweet_rolled_back (tweet_id uid newId : Id)
    (now : Nat) (db : DB)
    (htw : ∃ t ∈ db.tweets, t.id = tweet_id) :
    ((∃ l ∈ db.likes, l.tweet_id = tweet_id ∧ l.user_id = uid) →
      create_like tweet_id uid newId now db = (db, .error .AlreadyLiked))
    ∧ ((∃ r ∈ db.retweets, r.tweet_id = tweet_id ∧ r.user_id = uid) →
      create_retweet tweet_id uid newId now db =
        (db, .error .AlreadyRetweeted))
    ∧ Err.httpClass .AlreadyLiked = .badRequest
    ∧ Err.httpClass .AlreadyRetweeted = .badRequest := by
  obtain ⟨t0, ht0m, ht0id⟩ := htw
  have hsome : (db.tweets.find? (fun t => t.id == tweet_id)).isSome := by
    rw [List.find?_isSome]
    exact ⟨t0, ht0m, by simp [ht0id]⟩
  obtain ⟨tf, htf⟩ := Option.isSome_iff_exists.mp hsome
  refine ⟨?_, ?_, rfl, rfl⟩
  · rintro ⟨l0, hl0m, hl0t, hl0u⟩
    have hany : db.likes.any
        (fun l => l.tweet_id == tweet_id && l.user_id == uid) = true :=
      List.any_eq_true.mpr ⟨l0, hl0m, by simp [hl0t, hl0u]⟩
    unfold create_like
    rw [htf]
    simp [hany]
  · rintro ⟨r0, hr0m, hr0t, hr0u⟩
    have hany : db.retweets.any
        (fun r => r.tweet_id == tweet_id && r.user_id == uid) = true :=
      List.any_eq_true.mpr ⟨r0, hr0m, by simp [hr0t, hr0u]⟩
    unfold create_retweet
    rw [htf]
    simp [hany]

/-- Witness for claim C7 at a concrete input: user 9 already liked tweet 2 in
dbForeignLike. -/
theorem duplicate_like_retweet_rolled_back_witness :
    create_like 2 9 99 77 dbForeignLike = (dbForeignLike, .error .AlreadyLiked) := by
  have h := duplicate_like_retweet_rolled_back 2 9 99 77 dbForeignLike
    ⟨{ id := 2, user_id := 9, content := "b", media_url := none
       parent_tweet_id := none, created_at := 11 }, by decide, rfl⟩
  exact h.1 ⟨{ id := 7, tweet_id := 2, user_id := 9, created_at := 12 },
    by decide, rfl, rfl⟩

/-! ### Claim C10: login never checks the password of an unverified account -/

/-- Claim C10: for a stored user whose verified_on is null, login answers the
verify-your-email message (and no token) whatever password is submitted and
whatever the password-verification and token-issuing functions are: the
verification check precedes the credential check (src/auth/routers.py lines
42-51), so the result is identical across any two runs differing only in the
password, and InvalidCredentials is unreachable for such accounts. -/
theorem login_unverified_ignores_password (email p1 p2 : String)
    (vf1 vf2 : String → String → Bool) (mk1 mk2 : String → String)
    (db : DB) (u : User)
    (hu : db.users.find? (fun x => x.email == email) = some u)
    (hv : u.verified_on = none) :
    login email p1 vf1 mk1 db = .ok .verifyMessage
    ∧ login email p1 vf1 mk1 db = login email p2 vf2 mk2 db := by
  constructor <;> · unfold login; rw [hu]; simp [hv]

/-- State with a single unverified user. -/
def dbUnverified : DB :=
  { users := [{ id := 1, username := "newbie", email := "n@x.com"
                password := "hash1", full_name := "New Person"
                bio := none, profile_image_url := none, verified_on := none }]
    tweets := [], retweets := [], likes := [], follows := [] }

/-- Witness for claim C10 at a concrete input: right and wrong password give
the same verify-message answer. -/
theorem login_unverified_ignores_password_witness :
    login "n@x.com" "right" (fun a b => a == b) (fun e => e) dbUnverified =
      .ok .verifyMessage
    ∧ login "n@x.com" "right" (fun a b => a == b) (fun e => e) dbUnverified =
      login "n@x.com" "wrong" (fun _ _ => false) (fun _ => "t") dbUnverified := by
  exact login_unverified_ignores_password "n@x.com" "right" "wrong"
    (fun a b => a == b) (fun _ _ => false) (fun e => e) (fun _ => "t")
    dbUnverified _ rfl rfl

/-! ### Claim C8: the merged profile feed and its effective timestamps -/

/-- Claim C8: a successful get_user_tweets page is a permutation of the
original-tweets page and the retweets page merged, sorted in descending order
of the entry timestamp; every retweet entry carries the Retweet row's own
created_at (not the original tweet's), and every original entry carries its
tweet's created_at and belongs to the user's top-level tweets
(src/tweets/service.py lines 191-262). -/
theorem user_tweets_merge_and_timestamps (u : Id) (skip limit : Nat)
    (db : DB) (out : List UserTweetEntry)
    (h : get_user_tweets u skip limit db = .ok out) :
    List.Perm out
      (userOwnTweetsPage u skip limit db ++ userRetweetsPage u skip limit db)
    ∧ out.Pairwise (fun a b => b.created_at ≤ a.created_at)
    ∧ (∀ e ∈ out, e.is_retweet = true →
        ∃ r ∈ db.retweets, r.user_id = u ∧ r.tweet_id = e.id ∧
          e.created_at = r.created_at)
    ∧ (∀ e ∈ out, e.is_retweet = false →
        ∃ t ∈ db.tweets, t.id = e.id ∧ t.user_id = u ∧
          t.parent_tweet_id = none ∧ e.created_at = t.created_at) := by
  unfold get_user_tweets at h
  cases hfind : db.users.find? (fun x => x.id == u) with
  | none =>
      simp only [hfind] at h
      exact Except.noConfusion h
  | some w =>
      simp only [hfind, Except.ok.injEq] at h
      subst h
      refine ⟨sortByDesc_perm _ _, sortByDesc_sorted _ _, ?_, ?_⟩
      · intro e he htrue
        have hmem := (sortByDesc_mem _).mp he
        rcases List.mem_append.mp hmem with hA | hB
        · exfalso
          unfold userOwnTweetsPage at hA
          obtain ⟨t, _, hmk⟩ := List.mem_map.mp hA
          rw [← hmk] at htrue
          simp [origEntry] at htrue
        · unfold userRetweetsPage at hB
          obtain ⟨t, htp, hmap⟩ := List.mem_filterMap.mp hB
          cases hr : db.retweets.find?
              (fun r => r.tweet_id == t.id && r.user_id == u) with
          | none => rw [hr] at hmap; exact Option.noConfusion hmap
          | some r =>
              rw [hr] at hmap
              injection hmap with hmap
              subst hmap
              have hbeq := List.find?_some hr
              simp only [Bool.and_eq_true, beq_iff_eq] at hbeq
              refine ⟨r, List.mem_of_find?_eq_some hr, hbeq.2, ?_, rfl⟩
              simpa [retweetEntry] using hbeq.1
      · intro e he hfalse
        have hmem := (sortByDesc_mem _).mp he
        rcases List.mem_append.mp hmem with hA | hB
        · unfold userOwnTweetsPage at hA
          obtain ⟨t, htp, hmk⟩ := List.mem_map.mp hA
          have ht2 : t ∈ db.tweets.filter
              (fun x => x.user_id == u && x.parent_tweet_id.isNone) :=
            List.mem_of_mem_drop (List.mem_of_mem_take htp)
          have hf := List.mem_filter.mp ht2
          have hcond := hf.2
          simp only [Bool.and_eq_true, beq_iff_eq,
            Option.isNone_iff_eq_none] at hcond
          subst hmk
          exact ⟨t, hf.1, rfl, hcond.1, hcond.2, rfl⟩
        · exfalso
          unfold userRetweetsPage at hB
          obtain ⟨t, _, hmap⟩ := List.mem_filterMap.mp hB
          cases hr : db.retweets.find?
              (fun r => r.tweet_id == t.id && r.user_id == u) with
          | none => rw [hr] at hmap; exact Option.noConfusion hmap
          | some r =>
              rw [hr] at hmap
              injection hmap with hmap
              rw [← hmap] at hfalse
              simp [retweetEntry] at hfalse

/-- The page get_user_tweets computes on dbRetweetMerge for user 1 with
skip 0, limit 5: the retweet entry (timestamp 20, the retweet row's own) comes
before the original tweet entry (timestamp 10). -/
def mergedPageExample : List UserTweetEntry :=
  [{ id := 2, content := "theirs", media_url := none, created_at := 20
     user_id := 2, retweeted_by := some 1, likes_count := 0
     retweets_count := 1, replies_count := 0, is_retweet := true },
   { id := 1, content := "mine", media_url := none, created_at := 10
     user_id := 1, retweeted_by := none, likes_count := 0
     retweets_count := 0, replies_count := 0, is_retweet := false }]

/-- Witness for claim C8 at a concrete input. -/
theorem user_tweets_merge_and_timestamps_witness :
    mergedPageExample.Pairwise (fun a b => b.created_at ≤ a.created_at)
    ∧ List.Perm mergedPageExample
        (userOwnTweetsPage 1 0 5 dbRetweetMerge ++
          userRetweetsPage 1 0 5 dbRetweetMerge) := by
  have h := user_tweets_merge_and_timestamps 1 0 5 dbRetweetMerge
    mergedPageExample (by rfl)
  exact ⟨h.2.1, h.1⟩

/-! ### Claim C9: follow suggestions -/

/-- Claim C9: every outcome the randomized get_follow_suggestions can return
has at most limit entries, all distinct users (given the primary-key
uniqueness of user ids), never the viewer, never an already-followed user, and
is empty when no eligible user exists — for every possible random outcome
(src/follow/service.py lines 151-183). -/
theorem follow_suggestions_invariants (viewer : Id) (limit : Nat) (db : DB)
    (out : List SuggestionRow)
    (hids : (db.users.map (fun x => x.id)).Nodup)
    (h : get_follow_suggestions_can_return viewer limit db out) :
    out.length ≤ limit
    ∧ (∀ s ∈ out, s.id ≠ viewer)
    ∧ (∀ s ∈ out, ¬ ∃ f ∈ db.follows,
        f.follower_id = viewer ∧ f.followed_id = s.id)
    ∧ (out.map (fun s => s.id)).Nodup
    ∧ (suggestion_rows viewer db = [] → out = []) := by
  obtain ⟨hlen, zs, hsub, hperm⟩ := h
  have hrowmem : ∀ s ∈ out, s ∈ suggestion_rows viewer db := fun s hs =>
    hsub.subset (hperm.mem_iff.mp hs)
  refine ⟨?_, ?_, ?_, ?_, ?_⟩
  · rw [hlen]
    exact Nat.min_le_right _ _
  · intro s hs
    obtain ⟨usr, hu, hrow⟩ := List.mem_map.mp (hrowmem s hs)
    have hfil := (List.mem_filter.mp hu).2
    simp only [Bool.and_eq_true, bne_iff_ne] at hfil
    rw [← hrow]
    exact hfil.1
  · rintro s hs ⟨f, hfm, hfo, hfd⟩
    obtain ⟨usr, hu, hrow⟩ := List.mem_map.mp (hrowmem s hs)
    have hfil := (List.mem_filter.mp hu).2
    simp only [Bool.and_eq_true, Bool.not_eq_eq_eq_not, Bool.not_true,
      List.any_eq_false] at hfil
    have := hfil.2 f hfm
    rw [← hrow] at hfd
    simp [hfo, hfd] at this
  · have hrows : ((suggestion_rows viewer db).map (fun s => s.id)).Nodup := by
      unfold suggestion_rows
      rw [List.map_map]
      exact List.Nodup.sublist ((List.filter_sublist _).map _) hids
    have hzs : (zs.map (fun s => s.id)).Nodup :=
      List.Nodup.sublist (hsub.map _) hrows
    exact (List.Perm.nodup_iff (hperm.map _)).mpr hzs
  · intro hnil
    rw [hnil] at hsub
    have hz := List.sublist_nil.mp hsub
    subst hz
    exact List.Perm.eq_nil hperm

/-- The single eligible suggestion row for viewer 5 on dbForeignLike. -/
def suggestionRowExample : SuggestionRow :=
  { id := 9, full_name := "User 9", username := "user9"
    profile_image_url := none }

/-- Witness for claim C9 at a concrete input. -/
theorem follow_suggestions_invariants_witness :
    ([suggestionRowExample].map (fun s => s.id)).Nodup
    ∧ [suggestionRowExample].length ≤ 5 := by
  have h := follow_suggestions_invariants 5 5 dbForeignLike
    [suggestionRowExample] (by decide)
    ⟨by decide, [suggestionRowExample], by decide, by decide⟩
  exact ⟨h.2.2.2.1, h.1⟩

end Demake
